import Mathlib

/-!
Verification of the Stochastic Zonal Rule Engine
(`rule_engine_pre/rules/rule_dataclass.py`, `rule_engine_pre/rules/parser.py`,
`rule_engine_pre/preprocessing/template_modifier.py`).

Python floats are embedded as exact rationals (`ℚ`), machine integers as `ℤ`/`ℕ`,
Python dicts used as counters as insertion-ordered association lists, and the
numpy `default_rng(seed)` generator as an abstract deterministic stream of
rational draws in `[0, 1)` indexed by draw position.
-/

namespace RuleEngine

/-- `Zone` from `rules/rule_dataclass.py`: a named distance band from the city
center, `min_distance` and `max_distance` in meters. -/
structure Zone where
  name : String
  min_distance : ℚ
  max_distance : ℚ
deriving DecidableEq, Repr

/-- `Zone.contains`: `return self.min_distance <= distance < self.max_distance`. -/
def Zone.contains (z : Zone) (distance : ℚ) : Bool :=
  decide (z.min_distance ≤ distance ∧ distance < z.max_distance)

/-- `HousingRule` record fields from `rules/rule_dataclass.py`. -/
structure HousingRule where
  zone : String
  apartment_pct : ℚ
  detached_pct : ℚ
  terraced_pct : ℚ
deriving DecidableEq, Repr

/-- `LanduseRule` record fields from `rules/rule_dataclass.py`. -/
structure LanduseRule where
  zone : String
  residential_pct : ℚ
deriving DecidableEq, Repr

/-- `HouseholdRule` record fields from `rules/rule_dataclass.py`. -/
structure HouseholdRule where
  zone : String
  single_person_pct : ℚ
  single_parent_pct : ℚ
  two_parent_pct : ℚ
deriving DecidableEq, Repr

/-- The validation failures raised by the `__post_init__` checks
(`raise ValueError(...)` in `rules/rule_dataclass.py`). -/
inductive ValidationError where
  | percentageSumOutOfRange (total : ℚ)
  | percentageOutOfBounds (value : ℚ)
deriving DecidableEq, Repr

/-- `HousingRule.__post_init__`: construction succeeds iff
`0.99 <= apartment_pct + detached_pct + terraced_pct <= 1.01`. -/
def mkHousingRule (zone : String) (apartment_pct detached_pct terraced_pct : ℚ) :
    Except ValidationError HousingRule :=
  let total := apartment_pct + detached_pct + terraced_pct
  if 0.99 ≤ total ∧ total ≤ 1.01 then
    Except.ok ⟨zone, apartment_pct, detached_pct, terraced_pct⟩
  else
    Except.error (ValidationError.percentageSumOutOfRange total)

/-- `LanduseRule.__post_init__`: construction succeeds iff
`0.0 <= residential_pct <= 1.0`. -/
def mkLanduseRule (zone : String) (residential_pct : ℚ) :
    Except ValidationError LanduseRule :=
  if 0 ≤ residential_pct ∧ residential_pct ≤ 1 then
    Except.ok ⟨zone, residential_pct⟩
  else
    Except.error (ValidationError.percentageOutOfBounds residential_pct)

/-- `HouseholdRule.__post_init__`: construction succeeds iff
`0.99 <= single_person_pct + single_parent_pct + two_parent_pct <= 1.01`. -/
def mkHouseholdRule (zone : String) (single_person_pct single_parent_pct two_parent_pct : ℚ) :
    Except ValidationError HouseholdRule :=
  let total := single_person_pct + single_parent_pct + two_parent_pct
  if 0.99 ≤ total ∧ total ≤ 1.01 then
    Except.ok ⟨zone, single_person_pct, single_parent_pct, two_parent_pct⟩
  else
    Except.error (ValidationError.percentageSumOutOfRange total)

/-- `RuleSet` from `rules/rule_dataclass.py`: container for all rules.
It has exactly these four lists (no `residents_rules`, no `unit_size_rules`). -/
structure RuleSet where
  zones : List Zone
  housing_rules : List HousingRule
  landuse_rules : List LanduseRule
  household_rules : List HouseholdRule
deriving DecidableEq, Repr

/-- The `for zone in self.zones` loop of `RuleSet.get_zone`, with its early
`return zone` on the first match and final `return None`. -/
def zoneLoop (distance : ℚ) : List Zone → Option Zone
  | [] => none
  | z :: zs => if z.contains distance then some z else zoneLoop distance zs

/-- `RuleSet.get_zone`: first zone (in stored order) containing `distance`. -/
def RuleSet.get_zone (rs : RuleSet) (distance : ℚ) : Option Zone :=
  zoneLoop distance rs.zones

/-- The `for rule in self.housing_rules` loop of `RuleSet.get_housing_rule`. -/
def housingLoop (zone_name : String) : List HousingRule → Option HousingRule
  | [] => none
  | r :: rest => if r.zone = zone_name then some r else housingLoop zone_name rest

/-- `RuleSet.get_housing_rule`: first housing rule whose `zone` equals `zone_name`. -/
def RuleSet.get_housing_rule (rs : RuleSet) (zone_name : String) : Option HousingRule :=
  housingLoop zone_name rs.housing_rules

/-- The `for rule in self.landuse_rules` loop of `RuleSet.get_landuse_rule`. -/
def landuseLoop (zone_name : String) : List LanduseRule → Option LanduseRule
  | [] => none
  | r :: rest => if r.zone = zone_name then some r else landuseLoop zone_name rest

/-- `RuleSet.get_landuse_rule`: first landuse rule whose `zone` equals `zone_name`. -/
def RuleSet.get_landuse_rule (rs : RuleSet) (zone_name : String) : Option LanduseRule :=
  landuseLoop zone_name rs.landuse_rules

/-- The `for rule in self.household_rules` loop of `RuleSet.get_household_rule`. -/
def householdLoop (zone_name : String) : List HouseholdRule → Option HouseholdRule
  | [] => none
  | r :: rest => if r.zone = zone_name then some r else householdLoop zone_name rest

/-- `RuleSet.get_household_rule`: first household rule whose `zone` equals `zone_name`. -/
def RuleSet.get_household_rule (rs : RuleSet) (zone_name : String) : Option HouseholdRule :=
  householdLoop zone_name rs.household_rules

/-- The loop in `get_zone` is a first-match scan. -/
theorem zoneLoop_eq_find (distance : ℚ) (zs : List Zone) :
    zoneLoop distance zs = zs.find? (fun z => z.contains distance) := by
  induction zs with
  | nil => rfl
  | cons z zs ih =>
    by_cases h : z.contains distance
    · simp [zoneLoop, List.find?, h]
    · simp only [Bool.not_eq_true] at h
      simp [zoneLoop, List.find?, h, ih]

/-- The three example zones from the spec's interval-containment property. -/
def exampleZones : List Zone :=
  [⟨"zone0", 0, 1000⟩, ⟨"zone1", 1000, 2000⟩, ⟨"zone2", 2000, 5000⟩]

/-- Example rule set holding only the three example zones. -/
def exampleRuleSet : RuleSet := ⟨exampleZones, [], [], []⟩

/-- C2: `get_zone` scans zones in stored order and returns the first zone whose
half-open interval `[min_distance, max_distance)` contains the distance, and
`none` when no zone's interval contains it; on zones `[0,1000)`, `[1000,2000)`,
`[2000,5000)` it resolves `999.999` to the first zone, `1000.0` to the second,
and `5000.0` to none. -/
theorem get_zone_first_match_interval :
    (∀ (rs : RuleSet) (d : ℚ),
        rs.get_zone d =
          rs.zones.find? (fun z => decide (z.min_distance ≤ d ∧ d < z.max_distance)))
    ∧ (∀ (rs : RuleSet) (d : ℚ),
        rs.get_zone d = none ↔
          ∀ z ∈ rs.zones, ¬(z.min_distance ≤ d ∧ d < z.max_distance))
    ∧ exampleRuleSet.get_zone 999.999 = some ⟨"zone0", 0, 1000⟩
    ∧ exampleRuleSet.get_zone 1000.0 = some ⟨"zone1", 1000, 2000⟩
    ∧ exampleRuleSet.get_zone 5000.0 = none := by
  refine ⟨?_, ?_,
    by norm_num [RuleSet.get_zone, zoneLoop, Zone.contains, exampleRuleSet, exampleZones],
    by norm_num [RuleSet.get_zone, zoneLoop, Zone.contains, exampleRuleSet, exampleZones],
    by norm_num [RuleSet.get_zone, zoneLoop, Zone.contains, exampleRuleSet, exampleZones]⟩
  · intro rs d
    exact zoneLoop_eq_find d rs.zones
  · intro rs d
    rw [RuleSet.get_zone, zoneLoop_eq_find, List.find?_eq_none]
    constructor
    · intro h z hz
      have := h z hz
      simpa [Zone.contains] using this
    · intro h z hz
      simpa [Zone.contains] using h z hz

/-- C4: constructing a `HousingRule` or a `HouseholdRule` fails with a
`ValidationError` of kind "percentage sum out of range" iff the three
percentages do not sum to `1.0` within absolute tolerance `0.01`; in
particular `(0.5, 0.3, 0.1)` fails and `(0.5, 0.3, 0.2)` succeeds. -/
theorem percentage_sum_validation :
    (∀ (z : String) (a d t : ℚ),
        mkHousingRule z a d t =
            Except.error (ValidationError.percentageSumOutOfRange (a + d + t)) ↔
          ¬ |a + d + t - 1| ≤ 0.01)
    ∧ (∀ (z : String) (a d t : ℚ),
        ¬ |a + d + t - 1| ≤ 0.01 ∨ mkHousingRule z a d t = Except.ok ⟨z, a, d, t⟩)
    ∧ (∀ (z : String) (a b c : ℚ),
        mkHouseholdRule z a b c =
            Except.error (ValidationError.percentageSumOutOfRange (a + b + c)) ↔
          ¬ |a + b + c - 1| ≤ 0.01)
    ∧ mkHousingRule "z" 0.5 0.3 0.1 =
        Except.error (ValidationError.percentageSumOutOfRange 0.9)
    ∧ mkHousingRule "z" 0.5 0.3 0.2 = Except.ok ⟨"z", 0.5, 0.3, 0.2⟩ := by
  have inst1 : mkHousingRule "z" 0.5 0.3 0.1 =
      Except.error (ValidationError.percentageSumOutOfRange 0.9) := by
    rw [mkHousingRule]
    norm_num
  have inst2 : mkHousingRule "z" 0.5 0.3 0.2 = Except.ok ⟨"z", 0.5, 0.3, 0.2⟩ := by
    rw [mkHousingRule]
    norm_num
  have key : ∀ s : ℚ, (0.99 ≤ s ∧ s ≤ 1.01) ↔ |s - 1| ≤ 0.01 := by
    intro s
    rw [abs_sub_le_iff]
    constructor
    · rintro ⟨h1, h2⟩
      constructor <;> [linarith; linarith]
    · rintro ⟨h1, h2⟩
      constructor <;> [linarith; linarith]
  refine ⟨?_, ?_, ?_, inst1, inst2⟩
  · intro z a d t
    rw [mkHousingRule]
    by_cases h : (0.99 : ℚ) ≤ a + d + t ∧ a + d + t ≤ 1.01
    · rw [if_pos h]
      simp [(key (a + d + t)).mp h]
    · rw [if_neg h]
      simp [(key (a + d + t)).not.mp h]
  · intro z a d t
    by_cases h : (0.99 : ℚ) ≤ a + d + t ∧ a + d + t ≤ 1.01
    · right
      rw [mkHousingRule]
      simp [h]
    · left
      exact (key (a + d + t)).not.mp h
  · intro z a b c
    rw [mkHouseholdRule]
    by_cases h : (0.99 : ℚ) ≤ a + b + c ∧ a + b + c ≤ 1.01
    · rw [if_pos h]
      simp [(key (a + b + c)).mp h]
    · rw [if_neg h]
      simp [(key (a + b + c)).not.mp h]

/-! ## The template modifier (`preprocessing/template_modifier.py`) -/

/-- `BUILDING_CLASSES` table from `template_modifier.py`. -/
def BUILDING_CLASSES : List (String × ℤ) :=
  [("apartment", 14), ("detached", 17), ("terraced", 22), ("none", 99)]

/-- `ZONE_IDS` table from `template_modifier.py`. -/
def ZONE_IDS : List (String × ℤ) :=
  [("0_1km", 0), ("1_2km", 1), ("2_5km", 2), ("unknown", 99)]

/-- Python `dict.get(key, default)` on a literal table. -/
def dictGet (l : List (String × ℤ)) (k : String) (default : ℤ) : ℤ :=
  match l.find? (fun p => p.1 == k) with
  | some p => p.2
  | none => default

/-- Python `d[k] = d.get(k, 0) + 1` on an insertion-ordered counter dict
embedded as an association list: bump the existing entry in place or append a
fresh entry at the end. -/
def bump : List (String × ℕ) → String → List (String × ℕ)
  | [], k => [(k, 1)]
  | (k', v) :: rest, k =>
      if k' = k then (k', v + 1) :: rest else (k', v) :: bump rest k

/-- Python `d.get(k, 0)` on a counter dict. -/
def getCount (l : List (String × ℕ)) (k : String) : ℕ :=
  match l.find? (fun p => p.1 == k) with
  | some p => p.2
  | none => 0

/-- The nested update of `stats['by_zone_and_type']`: create the inner dict
for the zone when absent, then bump the building-type counter inside it. -/
def bumpNested : List (String × List (String × ℕ)) → String → String →
    List (String × List (String × ℕ))
  | [], z, t => [(z, bump [] t)]
  | (k, m) :: rest, z, t =>
      if k = z then (k, bump m t) :: rest else (k, m) :: bumpNested rest z t

/-- Python `d.get(z, dict()).get(t, 0)` on the nested counter. -/
def getNestedCount (l : List (String × List (String × ℕ))) (z t : String) : ℕ :=
  match l.find? (fun p => p.1 == z) with
  | some p => getCount p.2 t
  | none => 0

/-- State of `np.random.default_rng(seed)`: the seed-determined sequence of
`[0, 1)` draws the generator emits, together with the position of the next
draw. -/
structure RNG where
  stream : ℕ → ℚ
  idx : ℕ

/-- `self.rng.random()`: return the next draw and advance the stream. -/
def RNG.random (r : RNG) : ℚ × RNG :=
  (r.stream r.idx, ⟨r.stream, r.idx + 1⟩)

/-- `np.random.default_rng(seed)` starts at position 0 of the stream. -/
def mkRNG (stream : ℕ → ℚ) : RNG := ⟨stream, 0⟩

/-- `TemplateModifier._sample_building_type`: one `rng.choice` over
`['apartment', 'detached', 'terraced']` with probabilities
`(apartment_pct, detached_pct, terraced_pct)`. numpy draws a single uniform
`u` and inverts it through the cumulative weights normalized by their total
(`cdf /= cdf[-1]`; `searchsorted(cdf, u, side='right')`). -/
def sample_building_type (rng : RNG) (housing_rule : HousingRule) : String × RNG :=
  let (u, rng1) := rng.random
  let s := housing_rule.apartment_pct + housing_rule.detached_pct + housing_rule.terraced_pct
  let t :=
    if u < housing_rule.apartment_pct / s then "apartment"
    else if u < (housing_rule.apartment_pct + housing_rule.detached_pct) / s then "detached"
    else "terraced"
  (t, rng1)

/-- The three co-registered arrays loaded from the input NPZ template. -/
structure Template where
  rows : ℕ
  cols : ℕ
  building_class : ℕ → ℕ → ℤ
  cluster_street : ℕ → ℕ → ℤ
  city_center : ℕ → ℕ → ℤ

/-- Pointwise array write `g[row, col] = v`. -/
def setCell (g : ℕ → ℕ → ℤ) (row col : ℕ) (v : ℤ) : ℕ → ℕ → ℤ :=
  fun r c => if r = row ∧ c = col then v else g r c

/-- The `stats` dict built by `modify_template`. -/
structure Stats where
  total_cells : ℕ
  by_zone : List (String × ℕ)
  by_type : List (String × ℕ)
  by_zone_and_type : List (String × List (String × ℕ))
deriving DecidableEq, Repr

/-- The mutable loop state of `modify_template`: the building grid being
rewritten, the parallel zone grid, the generator, and the statistics. -/
structure EngineState where
  building_grid : ℕ → ℕ → ℤ
  zone_grid : ℕ → ℕ → ℤ
  rng : RNG
  stats : Stats

/-- All cell coordinates in row-major order, as visited by the nested
`for row in range(rows): for col in range(cols)` loops (and as enumerated by
`np.where` on a 2D array). -/
def cellList (rows cols : ℕ) : List (ℕ × ℕ) :=
  (List.range rows).flatMap (fun r => (List.range cols).map (fun c => (r, c)))

/-- `np.where(city_center_grid == 1)` followed by indexing `[0]`: the first
cell marked `1`, in row-major order. -/
def findCenterCell (t : Template) : Option (ℕ × ℕ) :=
  (cellList t.rows t.cols).find? (fun rc => t.city_center rc.1 rc.2 == 1)

/-- Step 2 of `modify_template`: `(center_x, center_y)` in meters, falling
back to the grid's geometric center when no cell is marked `1`. -/
def centerPosition (t : Template) (cell_size : ℚ) : ℚ × ℚ :=
  match findCenterCell t with
  | some (r, c) => ((c : ℚ) * cell_size, (r : ℚ) * cell_size)
  | none => ((t.cols : ℚ) * cell_size / 2, (t.rows : ℚ) * cell_size / 2)

/-- `Zone.contains` evaluated at the Euclidean distance `√dsq`, where
`dsq ≥ 0` is the exact squared distance: for the real square root,
`min_distance ≤ √dsq ↔ (min_distance ≤ 0 ∨ min_distance² ≤ dsq)` and
`√dsq < max_distance ↔ (0 < max_distance ∧ dsq < max_distance²)`.
The equivalence is proved in `containsSqrt_correct`. -/
def Zone.containsSqrt (z : Zone) (dsq : ℚ) : Bool :=
  decide ((z.min_distance ≤ 0 ∨ z.min_distance ^ 2 ≤ dsq) ∧
    (0 < z.max_distance ∧ dsq < z.max_distance ^ 2))

/-- The `get_zone` scan, evaluated at distance `√dsq`. -/
def zoneLoopSqrt (dsq : ℚ) : List Zone → Option Zone
  | [] => none
  | z :: zs => if z.containsSqrt dsq then some z else zoneLoopSqrt dsq zs

/-- `RuleSet.get_zone` applied at distance `√dsq`. -/
def RuleSet.get_zone_sqrt (rs : RuleSet) (dsq : ℚ) : Option Zone :=
  zoneLoopSqrt dsq rs.zones

/-- `Zone.containsSqrt` agrees with `Zone.contains` at the real square root. -/
theorem containsSqrt_correct (z : Zone) (dsq : ℚ) (h : 0 ≤ dsq) :
    z.containsSqrt dsq = true ↔
      ((z.min_distance : ℝ) ≤ Real.sqrt (dsq : ℝ) ∧
        Real.sqrt (dsq : ℝ) < (z.max_distance : ℝ)) := by
  have hdsq : (0 : ℝ) ≤ (dsq : ℝ) := by exact_mod_cast h
  have hs0 : 0 ≤ Real.sqrt (dsq : ℝ) := Real.sqrt_nonneg _
  have hs2 : Real.sqrt (dsq : ℝ) ^ 2 = (dsq : ℝ) := Real.sq_sqrt hdsq
  rw [Zone.containsSqrt, decide_eq_true_eq]
  constructor
  · rintro ⟨hmin, hmaxpos, hlt⟩
    have hmax : (0 : ℝ) < (z.max_distance : ℝ) := by exact_mod_cast hmaxpos
    have hlt' : (dsq : ℝ) < (z.max_distance : ℝ) ^ 2 := by exact_mod_cast hlt
    refine ⟨?_, ?_⟩
    · rcases hmin with hm | hm
      · have : (z.min_distance : ℝ) ≤ 0 := by exact_mod_cast hm
        linarith
      · have hm' : (z.min_distance : ℝ) ^ 2 ≤ (dsq : ℝ) := by exact_mod_cast hm
        nlinarith [hs2, hs0]
    · nlinarith [hs2, hs0]
  · rintro ⟨hle, hlt⟩
    refine ⟨?_, ?_, ?_⟩
    · by_cases hm : z.min_distance ≤ 0
      · exact Or.inl hm
      · right
        push_neg at hm
        have hm' : (0 : ℝ) < (z.min_distance : ℝ) := by exact_mod_cast hm
        have : (z.min_distance : ℝ) ^ 2 ≤ (dsq : ℝ) := by nlinarith [hs2]
        exact_mod_cast this
    · have : (0 : ℝ) < (z.max_distance : ℝ) := lt_of_le_of_lt hs0 hlt
      exact_mod_cast this
    · have : (dsq : ℝ) < (z.max_distance : ℝ) ^ 2 := by nlinarith [hs2, hs0]
      exact_mod_cast this

/-- Squared distance from the center of cell `(row, col)` to the reference
center: `(col·cell_size - center_x)² + (row·cell_size - center_y)²`. -/
def cellDistSq (center_x center_y cell_size : ℚ) (row col : ℕ) : ℚ :=
  ((col : ℚ) * cell_size - center_x) ^ 2 + ((row : ℚ) * cell_size - center_y) ^ 2

/-- The body of the per-cell loop of `TemplateModifier.modify_template`:
distance, zone lookup (evaluated on the exact squared distance), the two rule
lookups with their silent-skip branches, the residential draw, the optional
building-type draw, the grid writes, and the statistics updates. -/
def processCell (rules : RuleSet) (center_x center_y cell_size : ℚ)
    (st : EngineState) (row col : ℕ) : EngineState :=
  let dsq := cellDistSq center_x center_y cell_size row col
  match rules.get_zone_sqrt dsq with
  | none =>
      { st with
        building_grid := setCell st.building_grid row col (dictGet BUILDING_CLASSES "none" 99)
        zone_grid := setCell st.zone_grid row col (dictGet ZONE_IDS "unknown" 99) }
  | some zone =>
      let st1 := { st with zone_grid := setCell st.zone_grid row col (dictGet ZONE_IDS zone.name 99) }
      match rules.get_housing_rule zone.name with
      | none =>
          { st1 with
            building_grid := setCell st1.building_grid row col (dictGet BUILDING_CLASSES "none" 99) }
      | some housing_rule =>
          match rules.get_landuse_rule zone.name with
          | none =>
              { st1 with
                building_grid := setCell st1.building_grid row col (dictGet BUILDING_CLASSES "none" 99) }
          | some landuse_rule =>
              let (u, rng1) := st1.rng.random
              let is_residential := decide (u < landuse_rule.residential_pct)
              let step :=
                if is_residential then
                  let (bt, rng2) := sample_building_type rng1 housing_rule
                  (bt, setCell st1.building_grid row col (dictGet BUILDING_CLASSES bt 99), rng2)
                else
                  ("none", setCell st1.building_grid row col (dictGet BUILDING_CLASSES "none" 99), rng1)
              { building_grid := step.2.1
                zone_grid := st1.zone_grid
                rng := step.2.2
                stats :=
                  { st1.stats with
                    by_zone := bump st1.stats.by_zone zone.name
                    by_type := bump st1.stats.by_type step.1
                    by_zone_and_type := bumpNested st1.stats.by_zone_and_type zone.name step.1 } }

/-- The arrays written by `modify_template` — the main output NPZ
(`building_class`, `cluster_street`, `city_center`), the `_zones` NPZ
(`zone_grid`, `city_center`) — together with the returned stats dict. -/
structure ModifyOutput where
  building_class : ℕ → ℕ → ℤ
  cluster_street : ℕ → ℕ → ℤ
  city_center : ℕ → ℕ → ℤ
  zone_grid : ℕ → ℕ → ℤ
  zones_file_city_center : ℕ → ℕ → ℤ
  stats : Stats

/-- `TemplateModifier.modify_template`: copy the input arrays, locate the
center, initialize the zone grid to 99 and the stats counters, run the
row-major per-cell loop, and emit the output arrays and statistics. -/
def modify_template (rules : RuleSet) (rng : RNG) (t : Template)
    (cell_size : ℚ) : ModifyOutput :=
  let center := centerPosition t cell_size
  let init : EngineState :=
    { building_grid := t.building_class
      zone_grid := fun _ _ => 99
      rng := rng
      stats := { total_cells := t.rows * t.cols, by_zone := [], by_type := [], by_zone_and_type := [] } }
  let final := (cellList t.rows t.cols).foldl
    (fun st rc => processCell rules center.1 center.2 cell_size st rc.1 rc.2) init
  { building_class := final.building_grid
    cluster_street := t.cluster_street
    city_center := t.city_center
    zone_grid := final.zone_grid
    zones_file_city_center := t.city_center
    stats := final.stats }

/-- `TemplateModifier.__init__`: store the rule set and create an independent
generator for the given seed. `seedStream` stands for the deterministic
seed-to-draw-sequence map of `np.random.default_rng`. -/
structure TemplateModifier where
  rules : RuleSet
  rng : RNG

/-- `TemplateModifier(rules, random_seed)` with the generator at position 0. -/
def TemplateModifier.init (seedStream : ℕ → ℕ → ℚ) (rules : RuleSet)
    (random_seed : ℕ) : TemplateModifier :=
  ⟨rules, mkRNG (seedStream random_seed)⟩

/-- Run `modify_template` on a constructed `TemplateModifier`. -/
def TemplateModifier.run (m : TemplateModifier) (t : Template) (cell_size : ℚ) :
    ModifyOutput :=
  modify_template m.rules m.rng t cell_size

/-! ## Determinism and frame claims -/

/-- C1: for a fixed integer seed and a fixed input template, two runs of
`TemplateModifier` construction followed by `modify_template` produce the
same classified building grid, the same zone-label grid, and the same three
statistics maps. `seedStream` is the (deterministic) seed-to-draw-sequence
map of `np.random.default_rng`. -/
theorem modify_template_deterministic (seedStream : ℕ → ℕ → ℚ)
    (rules : RuleSet) (seed₁ seed₂ : ℕ) (t₁ t₂ : Template) (cell_size : ℚ)
    (hseed : seed₁ = seed₂) (htpl : t₁ = t₂) :
    ((TemplateModifier.init seedStream rules seed₁).run t₁ cell_size).building_class =
        ((TemplateModifier.init seedStream rules seed₂).run t₂ cell_size).building_class ∧
    ((TemplateModifier.init seedStream rules seed₁).run t₁ cell_size).zone_grid =
        ((TemplateModifier.init seedStream rules seed₂).run t₂ cell_size).zone_grid ∧
    ((TemplateModifier.init seedStream rules seed₁).run t₁ cell_size).stats.by_zone =
        ((TemplateModifier.init seedStream rules seed₂).run t₂ cell_size).stats.by_zone ∧
    ((TemplateModifier.init seedStream rules seed₁).run t₁ cell_size).stats.by_type =
        ((TemplateModifier.init seedStream rules seed₂).run t₂ cell_size).stats.by_type ∧
    ((TemplateModifier.init seedStream rules seed₁).run t₁ cell_size).stats.by_zone_and_type =
        ((TemplateModifier.init seedStream rules seed₂).run t₂ cell_size).stats.by_zone_and_type := by
  subst hseed
  subst htpl
  exact ⟨rfl, rfl, rfl, rfl, rfl⟩

/-- A trivial all-zero 1×1 template used to instantiate the hypotheses of
`modify_template_deterministic`. -/
def zeroTemplate : Template :=
  ⟨1, 1, fun _ _ => 0, fun _ _ => 0, fun _ _ => 0⟩

/-- Instantiation of C1 at a concrete seed, stream and template. -/
theorem modify_template_deterministic_witness :
    ((TemplateModifier.init (fun _ _ => 0) exampleRuleSet 42).run zeroTemplate 100).building_class =
        ((TemplateModifier.init (fun _ _ => 0) exampleRuleSet 42).run zeroTemplate 100).building_class ∧
    ((TemplateModifier.init (fun _ _ => 0) exampleRuleSet 42).run zeroTemplate 100).zone_grid =
        ((TemplateModifier.init (fun _ _ => 0) exampleRuleSet 42).run zeroTemplate 100).zone_grid ∧
    ((TemplateModifier.init (fun _ _ => 0) exampleRuleSet 42).run zeroTemplate 100).stats.by_zone =
        ((TemplateModifier.init (fun _ _ => 0) exampleRuleSet 42).run zeroTemplate 100).stats.by_zone ∧
    ((TemplateModifier.init (fun _ _ => 0) exampleRuleSet 42).run zeroTemplate 100).stats.by_type =
        ((TemplateModifier.init (fun _ _ => 0) exampleRuleSet 42).run zeroTemplate 100).stats.by_type ∧
    ((TemplateModifier.init (fun _ _ => 0) exampleRuleSet 42).run zeroTemplate 100).stats.by_zone_and_type =
        ((TemplateModifier.init (fun _ _ => 0) exampleRuleSet 42).run zeroTemplate 100).stats.by_zone_and_type :=
  modify_template_deterministic (fun _ _ => 0) exampleRuleSet 42 42 zeroTemplate zeroTemplate 100 rfl rfl

/-- C10: the `cluster_street` array and the `city_center` array written by
`modify_template` (to the main output file and to the zones file) are
element-for-element the arrays read from the input; the loop writes only the
building grid and the freshly created zone grid. -/
theorem untouched_arrays_preserved (rules : RuleSet) (rng : RNG) (t : Template)
    (cell_size : ℚ) :
    (∀ r c, (modify_template rules rng t cell_size).cluster_street r c = t.cluster_street r c) ∧
    (∀ r c, (modify_template rules rng t cell_size).city_center r c = t.city_center r c) ∧
    (∀ r c, (modify_template rules rng t cell_size).zones_file_city_center r c = t.city_center r c) :=
  ⟨fun _ _ => rfl, fun _ _ => rfl, fun _ _ => rfl⟩

/-! ## The rule parser (`rules/parser.py`)

`RuleParser.load_from_yaml` executes
`from .rule_dataclass import (RuleSet, Zone, HousingRule, LanduseRule,
HouseholdRule, ResidentsRule, UnitSizeRule)` at module import time and then
returns `RuleSet(zones=…, housing_rules=…, landuse_rules=…,
household_rules=…, residents_rules=…, unit_size_rules=…)`. Python resolves
each imported name against the top-level bindings of
`rules/rule_dataclass.py` and rejects unexpected keyword arguments of a
dataclass constructor, so the outcome of a call is decided by the four name
lists below, transcribed from the two source files. -/

/-- Top-level class names bound by `rules/rule_dataclass.py`. -/
def ruleDataclassNames : List String :=
  ["Zone", "HousingRule", "LanduseRule", "HouseholdRule", "RuleSet"]

/-- The names `rules/parser.py` imports `from .rule_dataclass`. -/
def parserImportedNames : List String :=
  ["RuleSet", "Zone", "HousingRule", "LanduseRule", "HouseholdRule",
   "ResidentsRule", "UnitSizeRule"]

/-- The field names of the `RuleSet` dataclass in `rules/rule_dataclass.py`. -/
def ruleSetFieldNames : List String :=
  ["zones", "housing_rules", "landuse_rules", "household_rules"]

/-- The keyword arguments `RuleParser.load_from_yaml` passes to `RuleSet(...)`. -/
def loadFromYamlKwargs : List String :=
  ["zones", "housing_rules", "landuse_rules", "household_rules",
   "residents_rules", "unit_size_rules"]

/-- The Python failures that can abort `RuleParser.load_from_yaml` before a
`RuleSet` exists. -/
inductive PyFailure where
  | importError (name : String)
  | typeError (kwarg : String)
deriving DecidableEq, Repr

/-- The failure (if any) of importing `rules/parser.py` and calling
`load_from_yaml` on a structurally valid rule document: the first name of the
`from .rule_dataclass import ...` list that `rules/rule_dataclass.py` does
not bind, else the first keyword argument of the `RuleSet(...)` call that is
not a `RuleSet` field. The per-record field parsing cannot influence this
outcome and is elided. -/
def load_from_yaml_failure : Option PyFailure :=
  match parserImportedNames.find? (fun n => !ruleDataclassNames.contains n) with
  | some n => some (PyFailure.importError n)
  | none =>
      match loadFromYamlKwargs.find? (fun k => !ruleSetFieldNames.contains k) with
      | some k => some (PyFailure.typeError k)
      | none => none

/-- C5 (code bug): `load_from_yaml` can never return a `RuleSet` with
residents-rule and unit-size-rule sequences — importing the parser already
fails, because `rules/rule_dataclass.py` binds neither `ResidentsRule` nor
`UnitSizeRule`, and its `RuleSet` has no `residents_rules` or
`unit_size_rules` field either. -/
theorem load_from_yaml_always_fails :
    load_from_yaml_failure = some (PyFailure.importError "ResidentsRule") ∧
    "ResidentsRule" ∉ ruleDataclassNames ∧
    "UnitSizeRule" ∉ ruleDataclassNames ∧
    "residents_rules" ∉ ruleSetFieldNames ∧
    "unit_size_rules" ∉ ruleSetFieldNames := by
  refine ⟨rfl, ?_, ?_, ?_, ?_⟩ <;> decide

/-! ## Per-cell behavior of the classification loop -/

/-- `BUILDING_CLASSES['none']` is 99. -/
theorem dictGet_building_none : dictGet BUILDING_CLASSES "none" 99 = 99 := by decide

/-- `ZONE_IDS['unknown']` is 99. -/
theorem dictGet_zone_unknown : dictGet ZONE_IDS "unknown" 99 = 99 := by decide

/-- A cell whose distance matches no zone: the loop writes the two sentinels
and `continue`s, leaving everything else (stats, RNG) untouched. -/
theorem processCell_none (rules : RuleSet) (cx cy cs : ℚ) (st : EngineState)
    (row col : ℕ)
    (h : rules.get_zone_sqrt (cellDistSq cx cy cs row col) = none) :
    processCell rules cx cy cs st row col =
      { st with
        building_grid := setCell st.building_grid row col 99
        zone_grid := setCell st.zone_grid row col 99 } := by
  simp only [processCell, h, dictGet_building_none, dictGet_zone_unknown]

/-- A cell whose zone resolves but lacks a housing rule or lacks a landuse
rule: the zone label is recorded, the building class is set to the "none"
sentinel, and the loop `continue`s without touching stats or RNG. -/
theorem processCell_missing (rules : RuleSet) (cx cy cs : ℚ) (st : EngineState)
    (row col : ℕ) (zone : Zone)
    (hz : rules.get_zone_sqrt (cellDistSq cx cy cs row col) = some zone)
    (hmiss : rules.get_housing_rule zone.name = none ∨
        rules.get_landuse_rule zone.name = none) :
    processCell rules cx cy cs st row col =
      { st with
        building_grid := setCell st.building_grid row col 99
        zone_grid := setCell st.zone_grid row col (dictGet ZONE_IDS zone.name 99) } := by
  rcases hmiss with hm | hm
  · simp only [processCell, hz, hm, dictGet_building_none]
  · cases hh : rules.get_housing_rule zone.name with
    | none => simp only [processCell, hz, hh, dictGet_building_none]
    | some hrule => simp only [processCell, hz, hh, hm, dictGet_building_none]

/-- Processing cell `(row, col)` writes no other cell of either grid. -/
theorem processCell_frame (rules : RuleSet) (cx cy cs : ℚ) (st : EngineState)
    (row col r c : ℕ) (hne : ¬(r = row ∧ c = col)) :
    (processCell rules cx cy cs st row col).building_grid r c = st.building_grid r c ∧
    (processCell rules cx cy cs st row col).zone_grid r c = st.zone_grid r c := by
  cases hz : rules.get_zone_sqrt (cellDistSq cx cy cs row col) with
  | none => simp [processCell, hz, setCell, hne]
  | some zone =>
    cases hh : rules.get_housing_rule zone.name with
    | none => simp [processCell, hz, hh, setCell, hne]
    | some hrule =>
      cases hl : rules.get_landuse_rule zone.name with
      | none => simp [processCell, hz, hh, hl, setCell, hne]
      | some lrule =>
        by_cases hres :
            st.rng.stream st.rng.idx < lrule.residential_pct
        · simp [processCell, hz, hh, hl, RNG.random, sample_building_type, setCell, hne, hres]
        · simp [processCell, hz, hh, hl, RNG.random, sample_building_type, setCell, hne, hres]

/-- If processing `(row, col)` always writes value `v` at observation `g`,
and processing any other cell leaves `g` unchanged, then after folding the
loop over a list of cells that visits `(row, col)` (or from a state already
satisfying `g = v`), the observation is `v`. -/
theorem foldl_processCell_value (rules : RuleSet) (cx cy cs : ℚ) (row col : ℕ)
    (g : EngineState → ℤ) (v : ℤ)
    (hset : ∀ st, g (processCell rules cx cy cs st row col) = v)
    (hframe : ∀ st r' c', ¬(row = r' ∧ col = c') →
        g (processCell rules cx cy cs st r' c') = g st) :
    ∀ (l : List (ℕ × ℕ)) (st : EngineState),
      ((row, col) ∈ l ∨ g st = v) →
      g (l.foldl (fun s rc => processCell rules cx cy cs s rc.1 rc.2) st) = v := by
  intro l
  induction l with
  | nil =>
    intro st h
    rcases h with h | h
    · simp at h
    · simpa using h
  | cons rc rest ih =>
    intro st h
    simp only [List.foldl_cons]
    by_cases hrc : rc = (row, col)
    · subst hrc
      exact ih _ (Or.inr (hset st))
    · rcases h with hmem | hval
      · rcases List.mem_cons.mp hmem with heq | hmem'
        · exact absurd heq.symm hrc
        · exact ih _ (Or.inl hmem')
      · refine ih _ (Or.inr ?_)
        rw [hframe st rc.1 rc.2 (fun hcontra =>
          hrc (Prod.ext_iff.mpr ⟨hcontra.1.symm, hcontra.2.symm⟩))]
        exact hval

/-- Every in-bounds cell is visited by the row-major loop. -/
theorem mem_cellList {rows cols row col : ℕ} (hr : row < rows) (hc : col < cols) :
    (row, col) ∈ cellList rows cols := by
  simp only [cellList, List.mem_flatMap, List.mem_map, List.mem_range]
  exact ⟨row, hr, ⟨col, hc, rfl⟩⟩

/-- C6: a grid cell whose distance matches no zone gets building class 99 and
zone label 99 in the output of `modify_template`, and processing that cell
contributes to none of the three statistics accumulators. -/
theorem unmatched_cell_sentinel (rules : RuleSet) (rng : RNG) (t : Template)
    (cell_size : ℚ) (row col : ℕ) (hrow : row < t.rows) (hcol : col < t.cols)
    (hz : rules.get_zone_sqrt
        (cellDistSq (centerPosition t cell_size).1 (centerPosition t cell_size).2
          cell_size row col) = none) :
    (modify_template rules rng t cell_size).building_class row col = 99 ∧
    (modify_template rules rng t cell_size).zone_grid row col = 99 ∧
    ∀ st : EngineState,
      (processCell rules (centerPosition t cell_size).1 (centerPosition t cell_size).2
        cell_size st row col).stats = st.stats := by
  have hmem := mem_cellList hrow hcol
  refine ⟨?_, ?_, ?_⟩
  · simp only [modify_template]
    refine foldl_processCell_value rules _ _ cell_size row col
      (fun st => st.building_grid row col) 99 ?_ ?_ _ _ (Or.inl hmem)
    · intro st
      rw [processCell_none rules _ _ cell_size st row col hz]
      simp [setCell]
    · intro st r' c' hne
      exact (processCell_frame rules _ _ cell_size st r' c' row col hne).1
  · simp only [modify_template]
    refine foldl_processCell_value rules _ _ cell_size row col
      (fun st => st.zone_grid row col) 99 ?_ ?_ _ _ (Or.inl hmem)
    · intro st
      rw [processCell_none rules _ _ cell_size st row col hz]
      simp [setCell]
    · intro st r' c' hne
      exact (processCell_frame rules _ _ cell_size st r' c' row col hne).2
  · intro st
    rw [processCell_none rules _ _ cell_size st row col hz]

/-- The single example zone `{name: "z", min_distance: 0, max_distance: 1000}`. -/
def zZone : Zone := ⟨"z", 0, 1000⟩

/-- HousingRule `(1.0, 0.0, 0.0)` for zone "z". -/
def zHousing : HousingRule := ⟨"z", 1, 0, 0⟩

/-- LanduseRule `residential_pct = 1.0` for zone "z". -/
def zLanduse : LanduseRule := ⟨"z", 1⟩

/-- Rule set with the single zone "z" fully equipped. -/
def zRules : RuleSet := ⟨[zZone], [zHousing], [zLanduse], []⟩

/-- Rule set with zone "z" but no housing rule (landuse rule present). -/
def zRulesNoHousing : RuleSet := ⟨[zZone], [], [zLanduse], []⟩

/-- A `rows × cols` all-zero template whose city-center marker is at `(0,0)`. -/
def markTemplate (rows cols : ℕ) : Template :=
  ⟨rows, cols, fun _ _ => 0, fun _ _ => 0, fun r c => if r = 0 ∧ c = 0 then 1 else 0⟩

/-- Instantiation of C6: cell `(0, 10)` of a 1×11 grid sits 1000 m from the
center, outside the single zone `[0, 1000)`, and comes out with both
sentinels. -/
theorem unmatched_cell_sentinel_witness :
    (modify_template zRules (mkRNG (fun _ => 0)) (markTemplate 1 11) 100).building_class 0 10 = 99 ∧
    (modify_template zRules (mkRNG (fun _ => 0)) (markTemplate 1 11) 100).zone_grid 0 10 = 99 := by
  have hcenter : centerPosition (markTemplate 1 11) 100 = (0, 0) := by
    rw [centerPosition, show findCenterCell (markTemplate 1 11) = some (0, 0) from by decide]
    norm_num
  have hz : zRules.get_zone_sqrt
      (cellDistSq (centerPosition (markTemplate 1 11) 100).1
        (centerPosition (markTemplate 1 11) 100).2 100 0 10) = none := by
    rw [hcenter]
    norm_num [RuleSet.get_zone_sqrt, zoneLoopSqrt, Zone.containsSqrt, zRules, zZone, cellDistSq]
  exact ⟨(unmatched_cell_sentinel zRules (mkRNG (fun _ => 0)) (markTemplate 1 11) 100 0 10
      (by norm_num [markTemplate]) (by norm_num [markTemplate]) hz).1,
    (unmatched_cell_sentinel zRules (mkRNG (fun _ => 0)) (markTemplate 1 11) 100 0 10
      (by norm_num [markTemplate]) (by norm_num [markTemplate]) hz).2.1⟩

/-- C7: a grid cell whose zone resolves but whose zone lacks a `HousingRule`
or lacks a `LanduseRule` gets building class 99 in the output of
`modify_template`, and processing it contributes to no statistics
accumulator; the housing-rule case holds regardless of the `LanduseRule`. -/
theorem missing_rule_sentinel (rules : RuleSet) (rng : RNG) (t : Template)
    (cell_size : ℚ) (row col : ℕ) (zone : Zone)
    (hrow : row < t.rows) (hcol : col < t.cols)
    (hz : rules.get_zone_sqrt
        (cellDistSq (centerPosition t cell_size).1 (centerPosition t cell_size).2
          cell_size row col) = some zone)
    (hmiss : rules.get_housing_rule zone.name = none ∨
        rules.get_landuse_rule zone.name = none) :
    (modify_template rules rng t cell_size).building_class row col = 99 ∧
    ∀ st : EngineState,
      (processCell rules (centerPosition t cell_size).1 (centerPosition t cell_size).2
        cell_size st row col).stats = st.stats := by
  have hmem := mem_cellList hrow hcol
  refine ⟨?_, ?_⟩
  · simp only [modify_template]
    refine foldl_processCell_value rules _ _ cell_size row col
      (fun st => st.building_grid row col) 99 ?_ ?_ _ _ (Or.inl hmem)
    · intro st
      rw [processCell_missing rules _ _ cell_size st row col zone hz hmiss]
      simp [setCell]
    · intro st r' c' hne
      exact (processCell_frame rules _ _ cell_size st r' c' row col hne).1
  · intro st
    rw [processCell_missing rules _ _ cell_size st row col zone hz hmiss]

/-- Instantiation of C7: the single cell of a 1×1 grid resolves to zone "z",
which has a landuse rule but no housing rule, and comes out as class 99. -/
theorem missing_rule_sentinel_witness :
    (modify_template zRulesNoHousing (mkRNG (fun _ => 0)) (markTemplate 1 1) 100).building_class 0 0 = 99 := by
  have hcenter : centerPosition (markTemplate 1 1) 100 = (0, 0) := by
    rw [centerPosition, show findCenterCell (markTemplate 1 1) = some (0, 0) from by decide]
    norm_num
  have hz : zRulesNoHousing.get_zone_sqrt
      (cellDistSq (centerPosition (markTemplate 1 1) 100).1
        (centerPosition (markTemplate 1 1) 100).2 100 0 0) = some zZone := by
    rw [hcenter]
    norm_num [RuleSet.get_zone_sqrt, zoneLoopSqrt, Zone.containsSqrt, zRulesNoHousing, zZone,
      cellDistSq]
  exact (missing_rule_sentinel zRulesNoHousing (mkRNG (fun _ => 0)) (markTemplate 1 1) 100 0 0 zZone
      (by norm_num [markTemplate]) (by norm_num [markTemplate]) hz (Or.inl rfl)).1

/-- Bumping a counter dict increments exactly the bumped key's count. -/
theorem getCount_bump (l : List (String × ℕ)) (k : String) :
    getCount (bump l k) k = getCount l k + 1 := by
  induction l with
  | nil => simp [bump, getCount, List.find?]
  | cons p rest ih =>
    obtain ⟨k', v⟩ := p
    by_cases h : k' = k
    · subst h
      simp [bump, getCount, List.find?]
    · have hbeq : (k' == k) = false := beq_eq_false_iff_ne.mpr h
      simp [bump, getCount, List.find?, h, hbeq]
      exact ih

/-- Nested bump increments exactly the bumped zone/type pair's count. -/
theorem getNestedCount_bumpNested (l : List (String × List (String × ℕ)))
    (z t : String) :
    getNestedCount (bumpNested l z t) z t = getNestedCount l z t + 1 := by
  induction l with
  | nil => simp [bumpNested, getNestedCount, getCount_bump, getCount, List.find?]
  | cons p rest ih =>
    obtain ⟨k, m⟩ := p
    by_cases h : k = z
    · subst h
      simp [bumpNested, getNestedCount, List.find?, getCount_bump]
    · have hbeq : (k == z) = false := beq_eq_false_iff_ne.mpr h
      simp [bumpNested, getNestedCount, List.find?, h, hbeq]
      exact ih

/-- `ZONE_IDS.get(name, 99)` falls through to 99 for every name other than
the three listed distance bands (including the literal name "unknown"). -/
theorem dictGet_zone_ids_unlisted (n : String)
    (h1 : n ≠ "0_1km") (h2 : n ≠ "1_2km") (h3 : n ≠ "2_5km") :
    dictGet ZONE_IDS n 99 = 99 := by
  have e1 : ("0_1km" == n) = false := beq_eq_false_iff_ne.mpr (Ne.symm h1)
  have e2 : ("1_2km" == n) = false := beq_eq_false_iff_ne.mpr (Ne.symm h2)
  have e3 : ("2_5km" == n) = false := beq_eq_false_iff_ne.mpr (Ne.symm h3)
  by_cases h4 : n = "unknown"
  · subst h4
    simp [dictGet, ZONE_IDS, List.find?, e1, e2, e3]
  · have e4 : ("unknown" == n) = false := beq_eq_false_iff_ne.mpr (Ne.symm h4)
    simp [dictGet, ZONE_IDS, List.find?, e1, e2, e3, e4]

/-- The fully-equipped branch of the per-cell loop: zone, housing rule and
landuse rule all resolve; one residential draw, then either a building-type
draw or the "none" class, and all three statistics get bumped. -/
theorem processCell_full (rules : RuleSet) (cx cy cs : ℚ) (st : EngineState)
    (row col : ℕ) (zone : Zone) (hrule : HousingRule) (lrule : LanduseRule)
    (hz : rules.get_zone_sqrt (cellDistSq cx cy cs row col) = some zone)
    (hh : rules.get_housing_rule zone.name = some hrule)
    (hl : rules.get_landuse_rule zone.name = some lrule) :
    processCell rules cx cy cs st row col =
      if st.rng.stream st.rng.idx < lrule.residential_pct then
        { building_grid := setCell st.building_grid row col
            (dictGet BUILDING_CLASSES
              ((sample_building_type ⟨st.rng.stream, st.rng.idx + 1⟩ hrule).1) 99)
          zone_grid := setCell st.zone_grid row col (dictGet ZONE_IDS zone.name 99)
          rng := ⟨st.rng.stream, st.rng.idx + 2⟩
          stats :=
            { st.stats with
              by_zone := bump st.stats.by_zone zone.name
              by_type := bump st.stats.by_type
                ((sample_building_type ⟨st.rng.stream, st.rng.idx + 1⟩ hrule).1)
              by_zone_and_type := bumpNested st.stats.by_zone_and_type zone.name
                ((sample_building_type ⟨st.rng.stream, st.rng.idx + 1⟩ hrule).1) } }
      else
        { building_grid := setCell st.building_grid row col 99
          zone_grid := setCell st.zone_grid row col (dictGet ZONE_IDS zone.name 99)
          rng := ⟨st.rng.stream, st.rng.idx + 1⟩
          stats :=
            { st.stats with
              by_zone := bump st.stats.by_zone zone.name
              by_type := bump st.stats.by_type "none"
              by_zone_and_type := bumpNested st.stats.by_zone_and_type zone.name "none" } } := by
  by_cases hres : st.rng.stream st.rng.idx < lrule.residential_pct
  · simp only [processCell, hz, hh, hl, RNG.random, hres, if_pos, decide_eq_true_eq,
      sample_building_type]
  · simp [processCell, hz, hh, hl, RNG.random, hres, dictGet_building_none]

/-- C9: a resolved zone whose name is not one of `0_1km`, `1_2km`, `2_5km`
gets zone label 99 — the same value as the "unknown" sentinel — while the
cell is still classified, and when its housing and landuse rules are present
it is still counted in all three statistics accumulators. -/
theorem unlisted_zone_label (rules : RuleSet) (cx cy cs : ℚ) (st : EngineState)
    (row col : ℕ) (zone : Zone)
    (hz : rules.get_zone_sqrt (cellDistSq cx cy cs row col) = some zone)
    (h1 : zone.name ≠ "0_1km") (h2 : zone.name ≠ "1_2km") (h3 : zone.name ≠ "2_5km") :
    (processCell rules cx cy cs st row col).zone_grid row col = 99 ∧
    dictGet ZONE_IDS "unknown" 99 = 99 ∧
    ∀ (hrule : HousingRule) (lrule : LanduseRule),
      rules.get_housing_rule zone.name = some hrule →
      rules.get_landuse_rule zone.name = some lrule →
      getCount (processCell rules cx cy cs st row col).stats.by_zone zone.name =
          getCount st.stats.by_zone zone.name + 1 ∧
      ∃ bt : String,
        (processCell rules cx cy cs st row col).stats.by_type =
            bump st.stats.by_type bt ∧
        getNestedCount (processCell rules cx cy cs st row col).stats.by_zone_and_type
            zone.name bt =
          getNestedCount st.stats.by_zone_and_type zone.name bt + 1 := by
  have hlabel := dictGet_zone_ids_unlisted zone.name h1 h2 h3
  refine ⟨?_, dictGet_zone_unknown, ?_⟩
  · cases hh : rules.get_housing_rule zone.name with
    | none =>
      rw [processCell_missing rules cx cy cs st row col zone hz (Or.inl hh)]
      simp [setCell, hlabel]
    | some hrule =>
      cases hl : rules.get_landuse_rule zone.name with
      | none =>
        rw [processCell_missing rules cx cy cs st row col zone hz (Or.inr hl)]
        simp [setCell, hlabel]
      | some lrule =>
        rw [processCell_full rules cx cy cs st row col zone hrule lrule hz hh hl]
        by_cases hres : st.rng.stream st.rng.idx < lrule.residential_pct
        · simp [hres, setCell, hlabel]
        · simp [hres, setCell, hlabel]
  · intro hrule lrule hh hl
    rw [processCell_full rules cx cy cs st row col zone hrule lrule hz hh hl]
    by_cases hres : st.rng.stream st.rng.idx < lrule.residential_pct
    · refine ⟨by simp [hres, getCount_bump], ?_⟩
      refine ⟨(sample_building_type ⟨st.rng.stream, st.rng.idx + 1⟩ hrule).1, ?_, ?_⟩
      · simp [hres]
      · simp [hres, getNestedCount_bumpNested]
    · refine ⟨by simp [hres, getCount_bump], ?_⟩
      refine ⟨"none", ?_, ?_⟩
      · simp [hres]
      · simp [hres, getNestedCount_bumpNested]

/-- A small concrete engine state for witnesses. -/
def wState : EngineState :=
  ⟨fun _ _ => 0, fun _ _ => 99, mkRNG (fun _ => 0), ⟨1, [], [], []⟩⟩

/-- Zone "z" at distance 0 resolves for cell `(0,0)` with zero center. -/
theorem zRules_zone_at_origin :
    zRules.get_zone_sqrt (cellDistSq 0 0 100 0 0) = some zZone := by
  norm_num [RuleSet.get_zone_sqrt, zoneLoopSqrt, Zone.containsSqrt, zRules, zZone, cellDistSq]

/-- Instantiation of C9 at zone "z" (not one of the three listed names). -/
theorem unlisted_zone_label_witness :
    (processCell zRules 0 0 100 wState 0 0).zone_grid 0 0 = 99 :=
  (unlisted_zone_label zRules 0 0 100 wState 0 0 zZone zRules_zone_at_origin
    (by decide) (by decide) (by decide)).1

/-- C3: with zone, housing rule and landuse rule all present, the cell makes
exactly one uniform draw and is residential iff that draw is strictly below
`residential_pct`; a residential cell makes exactly one more (categorical)
draw over apartment/detached/terraced weighted by the three percentages, and
the building class comes from the fixed table apartment→14, detached→17,
terraced→22, with non-residential cells set to 99. -/
theorem residential_cascade_draws (rules : RuleSet) (cx cy cs : ℚ)
    (st : EngineState) (row col : ℕ) (zone : Zone) (hrule : HousingRule)
    (lrule : LanduseRule)
    (hz : rules.get_zone_sqrt (cellDistSq cx cy cs row col) = some zone)
    (hh : rules.get_housing_rule zone.name = some hrule)
    (hl : rules.get_landuse_rule zone.name = some lrule) :
    (st.rng.stream st.rng.idx < lrule.residential_pct →
      (processCell rules cx cy cs st row col).building_grid row col =
        dictGet BUILDING_CLASSES
          (if st.rng.stream (st.rng.idx + 1) <
              hrule.apartment_pct /
                (hrule.apartment_pct + hrule.detached_pct + hrule.terraced_pct) then
            "apartment"
          else if st.rng.stream (st.rng.idx + 1) <
              (hrule.apartment_pct + hrule.detached_pct) /
                (hrule.apartment_pct + hrule.detached_pct + hrule.terraced_pct) then
            "detached"
          else "terraced") 99 ∧
      (processCell rules cx cy cs st row col).rng = ⟨st.rng.stream, st.rng.idx + 2⟩) ∧
    (¬ st.rng.stream st.rng.idx < lrule.residential_pct →
      (processCell rules cx cy cs st row col).building_grid row col = 99 ∧
      (processCell rules cx cy cs st row col).rng = ⟨st.rng.stream, st.rng.idx + 1⟩) ∧
    dictGet BUILDING_CLASSES "apartment" 99 = 14 ∧
    dictGet BUILDING_CLASSES "detached" 99 = 17 ∧
    dictGet BUILDING_CLASSES "terraced" 99 = 22 ∧
    dictGet BUILDING_CLASSES "none" 99 = 99 := by
  rw [processCell_full rules cx cy cs st row col zone hrule lrule hz hh hl]
  refine ⟨?_, ?_, by decide, by decide, by decide, by decide⟩
  · intro hres
    rw [if_pos hres]
    refine ⟨?_, rfl⟩
    simp [setCell, sample_building_type, RNG.random]
  · intro hres
    rw [if_neg hres]
    exact ⟨by simp [setCell], rfl⟩

/-- Instantiation of C3: at cell `(0,0)` under rules for zone "z" with
`residential_pct = 1` and housing `(1, 0, 0)`, the all-zero draw stream gives
a residential cell of class 14 after exactly two draws. -/
theorem residential_cascade_draws_witness :
    (processCell zRules 0 0 100 wState 0 0).building_grid 0 0 = 14 ∧
    (processCell zRules 0 0 100 wState 0 0).rng.idx = 2 := by
  have h := residential_cascade_draws zRules 0 0 100 wState 0 0 zZone zHousing zLanduse
    zRules_zone_at_origin rfl rfl
  have hres : wState.rng.stream wState.rng.idx < zLanduse.residential_pct := by
    norm_num [wState, mkRNG, zLanduse]
  obtain ⟨hmain, -, -⟩ := h
  obtain ⟨hbuild, hrng⟩ := hmain hres
  constructor
  · rw [hbuild]
    norm_num [wState, mkRNG, zHousing]
    decide
  · rw [hrng]
    rfl

/-! ## The end-to-end 2×2 scenario -/

/-- A 2×2 template with arbitrary building and street contents and the
city-center marker at `(0,0)`. -/
def twoByTwoTemplate (bg street : ℕ → ℕ → ℤ) : Template :=
  ⟨2, 2, bg, street, fun r c => if r = 0 ∧ c = 0 then 1 else 0⟩

/-- One fully-equipped step under `zRules` (zone "z", housing `(1,0,0)`,
landuse `1.0`): any cell within 1000 m of the origin center, with in-range
draws, becomes an apartment (class 14, zone label 99) and bumps all three
statistics at "z"/"apartment". -/
theorem zRules_step (st : EngineState) (row col : ℕ)
    (hd : cellDistSq 0 0 100 row col < 1000000)
    (h0 : st.rng.stream st.rng.idx < 1)
    (h1 : st.rng.stream (st.rng.idx + 1) < 1) :
    processCell zRules 0 0 100 st row col =
      { building_grid := setCell st.building_grid row col 14
        zone_grid := setCell st.zone_grid row col 99
        rng := ⟨st.rng.stream, st.rng.idx + 2⟩
        stats :=
          { st.stats with
            by_zone := bump st.stats.by_zone "z"
            by_type := bump st.stats.by_type "apartment"
            by_zone_and_type := bumpNested st.stats.by_zone_and_type "z" "apartment" } } := by
  have hc : zZone.containsSqrt (cellDistSq 0 0 100 row col) = true := by
    simp only [Zone.containsSqrt, zZone, decide_eq_true_eq]
    refine ⟨Or.inl le_rfl, by norm_num, ?_⟩
    rw [show ((1000 : ℚ) ^ 2 = 1000000) from by norm_num]
    exact hd
  have hz : zRules.get_zone_sqrt (cellDistSq 0 0 100 row col) = some zZone := by
    simp [RuleSet.get_zone_sqrt, zRules, zoneLoopSqrt, hc]
  rw [processCell_full zRules 0 0 100 st row col zZone zHousing zLanduse hz rfl rfl]
  rw [if_pos (show st.rng.stream st.rng.idx < zLanduse.residential_pct from h0)]
  have hbt : (sample_building_type ⟨st.rng.stream, st.rng.idx + 1⟩ zHousing).1 = "apartment" := by
    simp only [sample_building_type, RNG.random, zHousing]
    rw [show ((1 : ℚ) / (1 + 0 + 0) = 1) from by norm_num]
    rw [if_pos h1]
  rw [hbt, show zZone.name = "z" from rfl,
    show dictGet BUILDING_CLASSES "apartment" 99 = 14 from by decide,
    show dictGet ZONE_IDS "z" 99 = 99 from by decide]

set_option maxHeartbeats 1600000 in
/-- C8: on a 2×2 grid with cell size 100, center marker at `(0,0)`, one zone
`z = [0, 1000)`, housing `(1, 0, 0)` and landuse `residential_pct = 1`,
every cell becomes building class 14 (apartment), every cell's zone label is
`ZONE_IDS`' value for "z" (the fall-through 99), and the statistics count 4
cells for zone "z" and 4 apartments. -/
theorem end_to_end_2x2 (stream : ℕ → ℚ) (bg street : ℕ → ℕ → ℤ)
    (hstream : ∀ n, 0 ≤ stream n ∧ stream n < 1) :
    (∀ row col, row < 2 → col < 2 →
      (modify_template zRules (mkRNG stream) (twoByTwoTemplate bg street) 100).building_class row col = 14) ∧
    (∀ row col, row < 2 → col < 2 →
      (modify_template zRules (mkRNG stream) (twoByTwoTemplate bg street) 100).zone_grid row col =
        dictGet ZONE_IDS "z" 99) ∧
    dictGet ZONE_IDS "z" 99 = 99 ∧
    getCount (modify_template zRules (mkRNG stream) (twoByTwoTemplate bg street) 100).stats.by_zone "z" = 4 ∧
    getCount (modify_template zRules (mkRNG stream) (twoByTwoTemplate bg street) 100).stats.by_type "apartment" = 4 := by
  have hfind : findCenterCell (twoByTwoTemplate bg street) = some (0, 0) := rfl
  have hcenter : centerPosition (twoByTwoTemplate bg street) 100 = (0, 0) := by
    rw [centerPosition, hfind]
    norm_num
  have hcl : cellList 2 2 = [(0, 0), (0, 1), (1, 0), (1, 1)] := rfl
  have h1 : processCell zRules 0 0 100
      { building_grid := bg, zone_grid := fun _ _ => 99, rng := mkRNG stream
        stats := { total_cells := 2 * 2, by_zone := [], by_type := [], by_zone_and_type := [] } } 0 0 =
      ⟨setCell bg 0 0 14, setCell (fun _ _ => 99) 0 0 99, ⟨stream, 2⟩,
        ⟨4, [("z", 1)], [("apartment", 1)], [("z", [("apartment", 1)])]⟩⟩ := by
    rw [zRules_step _ 0 0 (by norm_num [cellDistSq]) ((hstream 0).2) ((hstream 1).2)]
    rfl
  have h2 : processCell zRules 0 0 100
      ⟨setCell bg 0 0 14, setCell (fun _ _ => 99) 0 0 99, ⟨stream, 2⟩,
        ⟨4, [("z", 1)], [("apartment", 1)], [("z", [("apartment", 1)])]⟩⟩ 0 1 =
      ⟨setCell (setCell bg 0 0 14) 0 1 14,
        setCell (setCell (fun _ _ => 99) 0 0 99) 0 1 99, ⟨stream, 4⟩,
        ⟨4, [("z", 2)], [("apartment", 2)], [("z", [("apartment", 2)])]⟩⟩ := by
    rw [zRules_step _ 0 1 (by norm_num [cellDistSq]) ((hstream 2).2) ((hstream 3).2)]
    rfl
  have h3 : processCell zRules 0 0 100
      ⟨setCell (setCell bg 0 0 14) 0 1 14,
        setCell (setCell (fun _ _ => 99) 0 0 99) 0 1 99, ⟨stream, 4⟩,
        ⟨4, [("z", 2)], [("apartment", 2)], [("z", [("apartment", 2)])]⟩⟩ 1 0 =
      ⟨setCell (setCell (setCell bg 0 0 14) 0 1 14) 1 0 14,
        setCell (setCell (setCell (fun _ _ => 99) 0 0 99) 0 1 99) 1 0 99, ⟨stream, 6⟩,
        ⟨4, [("z", 3)], [("apartment", 3)], [("z", [("apartment", 3)])]⟩⟩ := by
    rw [zRules_step _ 1 0 (by norm_num [cellDistSq]) ((hstream 4).2) ((hstream 5).2)]
    rfl
  have h4 : processCell zRules 0 0 100
      ⟨setCell (setCell (setCell bg 0 0 14) 0 1 14) 1 0 14,
        setCell (setCell (setCell (fun _ _ => 99) 0 0 99) 0 1 99) 1 0 99, ⟨stream, 6⟩,
        ⟨4, [("z", 3)], [("apartment", 3)], [("z", [("apartment", 3)])]⟩⟩ 1 1 =
      ⟨setCell (setCell (setCell (setCell bg 0 0 14) 0 1 14) 1 0 14) 1 1 14,
        setCell (setCell (setCell (setCell (fun _ _ => 99) 0 0 99) 0 1 99) 1 0 99) 1 1 99,
        ⟨stream, 8⟩,
        ⟨4, [("z", 4)], [("apartment", 4)], [("z", [("apartment", 4)])]⟩⟩ := by
    rw [zRules_step _ 1 1 (by norm_num [cellDistSq]) ((hstream 6).2) ((hstream 7).2)]
    rfl
  have hrun : (cellList 2 2).foldl
      (fun st rc => processCell zRules 0 0 100 st rc.1 rc.2)
      { building_grid := bg, zone_grid := fun _ _ => 99, rng := mkRNG stream
        stats := { total_cells := 2 * 2, by_zone := [], by_type := [], by_zone_and_type := [] } } =
      ⟨setCell (setCell (setCell (setCell bg 0 0 14) 0 1 14) 1 0 14) 1 1 14,
        setCell (setCell (setCell (setCell (fun _ _ => 99) 0 0 99) 0 1 99) 1 0 99) 1 1 99,
        ⟨stream, 8⟩,
        ⟨4, [("z", 4)], [("apartment", 4)], [("z", [("apartment", 4)])]⟩⟩ := by
    rw [hcl]
    simp only [List.foldl_cons, List.foldl_nil]
    rw [h1, h2, h3, h4]
  have hout : modify_template zRules (mkRNG stream) (twoByTwoTemplate bg street) 100 =
      { building_class := setCell (setCell (setCell (setCell bg 0 0 14) 0 1 14) 1 0 14) 1 1 14
        cluster_street := street
        city_center := fun r c => if r = 0 ∧ c = 0 then 1 else 0
        zone_grid := setCell (setCell (setCell (setCell (fun _ _ => 99) 0 0 99) 0 1 99) 1 0 99) 1 1 99
        zones_file_city_center := fun r c => if r = 0 ∧ c = 0 then 1 else 0
        stats := ⟨4, [("z", 4)], [("apartment", 4)], [("z", [("apartment", 4)])]⟩ } := by
    rw [modify_template, hcenter]
    simp only [show (twoByTwoTemplate bg street).rows = 2 from rfl,
      show (twoByTwoTemplate bg street).cols = 2 from rfl,
      show (twoByTwoTemplate bg street).building_class = bg from rfl,
      show (twoByTwoTemplate bg street).cluster_street = street from rfl,
      show (twoByTwoTemplate bg street).city_center =
        (fun r c => if r = 0 ∧ c = 0 then 1 else 0) from rfl]
    rw [hrun]
  refine ⟨?_, ?_, by decide, ?_, ?_⟩
  · intro row col hrow hcol
    rw [hout]
    interval_cases row <;> interval_cases col <;> simp [setCell]
  · intro row col hrow hcol
    rw [hout, show dictGet ZONE_IDS "z" 99 = 99 from by decide]
    interval_cases row <;> interval_cases col <;> simp [setCell]
  · rw [hout]
    show getCount [("z", 4)] "z" = 4
    decide
  · rw [hout]
    show getCount [("apartment", 4)] "apartment" = 4
    decide

/-- Instantiation of C8 with the all-zero draw stream and all-zero grids. -/
theorem end_to_end_2x2_witness :
    (modify_template zRules (mkRNG fun _ => 0)
      (twoByTwoTemplate (fun _ _ => 0) (fun _ _ => 0)) 100).building_class 0 0 = 14 ∧
    getCount (modify_template zRules (mkRNG fun _ => 0)
      (twoByTwoTemplate (fun _ _ => 0) (fun _ _ => 0)) 100).stats.by_zone "z" = 4 ∧
    getCount (modify_template zRules (mkRNG fun _ => 0)
      (twoByTwoTemplate (fun _ _ => 0) (fun _ _ => 0)) 100).stats.by_type "apartment" = 4 := by
  have h := end_to_end_2x2 (fun _ => 0) (fun _ _ => 0) (fun _ _ => 0)
    (fun n => ⟨le_refl 0, by norm_num⟩)
  exact ⟨h.1 0 0 (by norm_num) (by norm_num), h.2.2.2.1, h.2.2.2.2⟩

end RuleEngine
